import Mathlib

/-!
Verification of the trade-lifecycle engine in `bot.py` (and its event logger
`logger.py`) against its natural-language specification.

Modelling conventions:
* Python floats are modelled as exact rationals (`ℚ`).
* Timestamps and durations are rationals measured in minutes, so the
  2-hour hold timeout is `120` and the default cooldown is `60`.
* The indicator columns produced by `apply_indicators` (EMA9, EMA21, RSI,
  ATR, the 20-period rolling ATR mean, VWAP, MACD histogram, ADX, OBV and
  the precomputed volume-spike flag) are opaque inputs, collected into a
  `Snapshot` of the last row of the dataframe (plus the previous-row OBV,
  which `should_buy` reads from the second-to-last row).
* MongoDB collections are modelled as functions from symbol to an optional
  document; `update_one` with `upsert=True` is function update, and `$set`
  keeps the fields it does not mention.
* Boolean-valued Python predicates over floats are modelled either as
  decidable `Prop`s or as `Bool`s built with `decide`, as convenient.
-/

/-- The last row of the indicator dataframe built by `apply_indicators`
(`bot.py` lines 65-80), restricted to the columns the trading logic reads,
together with the previous-row OBV used by the OBV check. -/
structure Snapshot where
  close : ℚ
  ema9 : ℚ
  ema21 : ℚ
  rsi : ℚ
  atr : ℚ
  atrMean : ℚ
  vwap : ℚ
  macdDiff : ℚ
  adx : ℚ
  obv : ℚ
  obvPrev : ℚ
  volumeSpike : Bool
deriving DecidableEq

/-- `detect_market_regime` (`bot.py` lines 82-83): trending iff ADX > 25. -/
def detect_market_regime (s : Snapshot) : String :=
  if s.adx > 25 then "trending" else "ranging"

/-- `get_adaptive_rsi_bounds` (`bot.py` lines 85-88): narrow band (45, 65) when
the current ATR strictly exceeds its 20-period rolling mean, else (40, 70). -/
def get_adaptive_rsi_bounds (s : Snapshot) : ℚ × ℚ :=
  if s.atr > s.atrMean then (45, 65) else (40, 70)

/-- `should_buy` (`bot.py` lines 97-141): runs all seven entry checks without
short-circuiting, accumulating passed and failed reason strings in order, and
returns `(len(failed) == 0, passed, failed)`.  Reason strings are kept close to
the source text (formatted numeric interpolations elided). -/
def should_buy (s : Snapshot) : Bool × List String × List String :=
  let bounds := get_adaptive_rsi_bounds s
  let rsi_lower := bounds.1
  let rsi_upper := bounds.2
  let pf1 : List String × List String :=
    if detect_market_regime s = "trending" then
      (["Regime: trending (ADX > 25)"], [])
    else
      ([], ["Regime: not trending (ADX <= 25)"])
  let pf2 :=
    if s.ema9 > s.ema21 then (pf1.1 ++ ["EMA: EMA9 > EMA21"], pf1.2)
    else (pf1.1, pf1.2 ++ ["EMA: EMA9 <= EMA21"])
  let pf3 :=
    if rsi_lower < s.rsi ∧ s.rsi < rsi_upper then (pf2.1 ++ ["RSI in bounds"], pf2.2)
    else (pf2.1, pf2.2 ++ ["RSI out of bounds"])
  let pf4 :=
    if s.close > s.vwap then (pf3.1 ++ ["Close > VWAP"], pf3.2)
    else (pf3.1, pf3.2 ++ ["Close <= VWAP"])
  let pf5 :=
    if s.adx > 20 then (pf4.1 ++ ["ADX > 20"], pf4.2)
    else (pf4.1, pf4.2 ++ ["ADX <= 20"])
  let pf6 :=
    if s.volumeSpike then (pf5.1 ++ ["Volume spike detected"], pf5.2)
    else (pf5.1, pf5.2 ++ ["No volume spike"])
  let pf7 :=
    if s.obv > s.obvPrev then (pf6.1 ++ ["OBV increasing"], pf6.2)
    else (pf6.1, pf6.2 ++ ["OBV not increasing"])
  (pf7.2.isEmpty, pf7.1, pf7.2)

/-- `should_sell` (`bot.py` lines 144-160): regime-conditional exit signal,
stated as a decidable proposition.  The disjuncts appear in source order. -/
def should_sell (s : Snapshot) (entry_price : ℚ) : Prop :=
  if detect_market_regime s = "trending" then
    s.ema9 < s.ema21 ∨ s.rsi > (get_adaptive_rsi_bounds s).2 ∨
      s.close < entry_price - 3/2 * s.atr ∨ s.macdDiff < 0 ∨ s.adx < 20
  else
    s.rsi > (get_adaptive_rsi_bounds s).2 ∨ s.close < entry_price - 1 * s.atr ∨
      s.close < s.vwap

instance should_sell_decidable (s : Snapshot) (entry_price : ℚ) :
    Decidable (should_sell s entry_price) := by
  unfold should_sell
  infer_instance

/-! ## Quantity rounding (`round(per_trade_usdt / close, precision)`) -/

/-- Python `round` on an exact value: round half to even (banker rounding).
The branches follow the definition of round-half-even on the fractional part. -/
def round_half_even (q : ℚ) : ℤ :=
  if q - ⌊q⌋ < 1/2 then ⌊q⌋
  else if 1/2 < q - ⌊q⌋ then ⌊q⌋ + 1
  else if ⌊q⌋ % 2 = 0 then ⌊q⌋ else ⌊q⌋ + 1

/-- Python `round(q, ndigits)` on an exact value: scale by `10 ^ ndigits`,
round half to even, scale back. -/
def pyround (q : ℚ) (ndigits : ℕ) : ℚ :=
  (round_half_even (q * 10 ^ ndigits) : ℚ) / 10 ^ ndigits

/-- Order sizing in `trade_symbol` (`bot.py` line 254):
`amount = round(per_trade_usdt / df["close"].iloc[-1], precision)` where
`precision = get_precision(symbol)` is the quantity precision of the market. -/
def order_amount (per_trade_usdt close : ℚ) (precision : ℕ) : ℚ :=
  pyround (per_trade_usdt / close) precision

/-- Modelled from the spec: the sizing rule as the spec words it — allocated
capital over entry price, rounded DOWN to the quantity precision of the
instrument.  Stated only for comparison with `order_amount`. -/
def floor_to_precision (q : ℚ) (precision : ℕ) : ℚ :=
  (⌊q * 10 ^ precision⌋ : ℚ) / 10 ^ precision

/-! ## Position store (`positions_collection`) and cooldown -/

/-- A document in `positions_collection`.  MongoDB documents are partial, so
every field is optional; `save_position` fills the position fields and
`delete_position` sets only `last_closed`. -/
structure PositionDoc where
  amount : Option ℚ
  buy_price : Option ℚ
  stop_loss : Option ℚ
  take_profit : Option ℚ
  entry_time : Option ℚ
  last_closed : Option ℚ
deriving DecidableEq

/-- The `positions_collection`, keyed by symbol. -/
abbrev Store := String → Option PositionDoc

/-- An empty `positions_collection`. -/
def empty_store : Store := fun _ => none

/-- A document with no fields set (fresh upsert target). -/
def blank_doc : PositionDoc := ⟨none, none, none, none, none, none⟩

/-- `save_position` (`bot.py` lines 196-197): `update_one({"symbol": symbol},
{"$set": position}, upsert=True)` with the position dict built at entry
(`bot.py` lines 263-270).  `$set` keeps fields it does not mention, so a
pre-existing `last_closed` survives. -/
def save_position (st : Store) (symbol : String)
    (amount buy_price stop_loss take_profit entry_time : ℚ) : Store :=
  fun s =>
    if s = symbol then
      some { (st symbol).getD blank_doc with
              amount := some amount
              buy_price := some buy_price
              stop_loss := some stop_loss
              take_profit := some take_profit
              entry_time := some entry_time }
    else st s

/-- `delete_position` (`bot.py` lines 199-204): despite its name it runs
`update_one({"symbol": symbol}, {"$set": {"last_closed": now}}, upsert=True)`,
which only sets `last_closed` on the (kept or freshly inserted) document. -/
def delete_position (st : Store) (symbol : String) (closed_at : ℚ) : Store :=
  fun s =>
    if s = symbol then some { (st symbol).getD blank_doc with last_closed := some closed_at }
    else st s

/-- The `symbol in positions` test of `trade_symbol` (`bot.py` lines 243-246),
where `positions = load_positions()` maps every stored document by symbol. -/
def position_reported (st : Store) (symbol : String) : Bool :=
  (st symbol).isSome

/-- `is_in_cooldown` (`bot.py` lines 206-211): look the symbol up in
`positions_collection`; if a document exists and has `last_closed`, the symbol
is in cooldown while `now < last_closed + cooldown_minutes`; otherwise it is
not in cooldown. -/
def is_in_cooldown (st : Store) (symbol : String) (cooldown_minutes now : ℚ) : Bool :=
  match st symbol with
  | some pos =>
    match pos.last_closed with
    | some last_closed => decide (now < last_closed + cooldown_minutes)
    | none => false
  | none => false

/-! ## The monitoring loop of an open position -/

/-- The in-memory state of an open position inside `trade_symbol`
(`bot.py` lines 253-270): order size, entry close price and the fixed
stop-loss / take-profit boundaries. -/
structure OpenPosition where
  amount : ℚ
  buy_price : ℚ
  stop_loss : ℚ
  take_profit : ℚ
deriving DecidableEq

/-- Which terminal branch of the monitoring loop fired. -/
inductive ExitReason
  | takeProfit
  | stopLoss
  | trailingStop
  | sellSignal
  | timeout
deriving DecidableEq

/-- Result of one monitoring tick: the updated trailing stop and, when a
terminal branch fired, its reason together with the PnL it logged. -/
structure TickResult where
  trailing_stop : ℚ
  exit : Option (ExitReason × ℚ)
deriving DecidableEq

/-- One iteration of the `while not sold` loop of `trade_symbol`
(`bot.py` lines 278-318).  Inputs: the position, the fresh indicator snapshot
of this tick, the ticker price, the trailing stop carried over from the
previous tick, the ATR captured at entry (the local variable `atr` is assigned
once at line 257 and never reassigned in the loop), the current time and the
entry time.  The local variable `trailing_stop` is updated first
(line 283) and then the five exit tests run as an `if`/`elif` chain; the
trailing-stop hit test therefore sees the updated value.  Every terminal
branch computes `pnl = (price - buy_price) * amount`. -/
def monitor_tick (pos : OpenPosition) (snap : Snapshot)
    (price trailing atr_entry now start_time : ℚ) : TickResult :=
  if price ≥ pos.take_profit then
    ⟨max trailing (price - 1 * atr_entry),
      some (ExitReason.takeProfit, (price - pos.buy_price) * pos.amount)⟩
  else if price ≤ pos.stop_loss then
    ⟨max trailing (price - 1 * atr_entry),
      some (ExitReason.stopLoss, (price - pos.buy_price) * pos.amount)⟩
  else if price ≤ max trailing (price - 1 * atr_entry) then
    ⟨max trailing (price - 1 * atr_entry),
      some (ExitReason.trailingStop, (price - pos.buy_price) * pos.amount)⟩
  else if should_sell snap pos.buy_price then
    ⟨max trailing (price - 1 * atr_entry),
      some (ExitReason.sellSignal, (price - pos.buy_price) * pos.amount)⟩
  else if now > start_time + 120 then
    ⟨max trailing (price - 1 * atr_entry),
      some (ExitReason.timeout, (price - pos.buy_price) * pos.amount)⟩
  else
    ⟨max trailing (price - 1 * atr_entry), none⟩

/-! ## The entry phase of `trade_symbol` -/

/-- Python truthiness of the 3-tuple returned by `should_buy`: a tuple is
truthy iff it is non-empty, so `bool((flag, passed, failed))` is `True`
whatever the flag is.  Line 251 of `bot.py` tests
`if should_buy(df) and confirm_higher_timeframe(symbol):`, i.e. the truthiness
of the whole tuple, not the boolean flag extracted on line 250. -/
def py_truthy_tuple3 (_t : Bool × List String × List String) : Bool :=
  true

/-- The distinct ways a lifecycle run can end without holding a position. -/
inductive SkipKind
  | activeLock
  | cooldown
  | pause
  | positionOpen
  | noSignal
  | higherTF
deriving DecidableEq

/-- A Telegram notification sent by `send_telegram` during the entry phase.
Message payloads carry the data interpolated into the source f-strings;
surrounding text and emoji are elided. -/
inductive TelegramMsg
  | buyAlert (symbol : String) (buy_price take_profit stop_loss : ℚ)
  | skipNoSignal (symbol : String) (reasons : List String)
  | skipHigherTF (symbol : String)
deriving DecidableEq

/-- The environment of one lifecycle run: the outcomes of the four guard
checks made before the signal evaluation (`bot.py` lines 231-246). -/
structure RunCtx where
  trade_active : Bool
  in_cooldown : Bool
  pause_trading : Bool
  position_open : Bool
deriving DecidableEq

/-- Observable outcome of the entry phase: the skip kind (if the run skipped),
the market buy orders placed as (symbol, amount) pairs, and the Telegram
messages sent. -/
structure EntryResult where
  skip : Option SkipKind
  orders : List (String × ℚ)
  telegrams : List TelegramMsg
deriving DecidableEq

/-- The entry phase of `trade_symbol` (`bot.py` lines 230-255 and 324-332),
up to and including order placement and the buy/skip notifications.  The four
guard checks run in source order (active trade, cooldown, global pause, open
position); the first three only `print` and return.  Then line 251 branches on
`should_buy(df) and confirm_higher_timeframe(symbol)` — the truthy tuple, see
`py_truthy_tuple3` — and the code recomputes `should_buy(df)` there even
though line 250 already captured `(flag, passed, failed)`; both calls are
over the same dataframe, so the model reuses one `should_buy s`.  In the else
branch the skip message is chosen by the captured flag. -/
def trade_symbol_entry (ctx : RunCtx) (symbol : String) (per_trade_usdt : ℚ)
    (precision : ℕ) (s : Snapshot) (htf_confirms : Bool) : EntryResult :=
  if ctx.trade_active then ⟨some SkipKind.activeLock, [], []⟩
  else if ctx.in_cooldown then ⟨some SkipKind.cooldown, [], []⟩
  else if ctx.pause_trading then ⟨some SkipKind.pause, [], []⟩
  else if ctx.position_open then ⟨some SkipKind.positionOpen, [], []⟩
  else if py_truthy_tuple3 (should_buy s) && htf_confirms then
    ⟨none,
      [(symbol, order_amount per_trade_usdt s.close precision)],
      [TelegramMsg.buyAlert symbol s.close (s.close + 5/2 * s.atr) (s.close - 3/2 * s.atr)]⟩
  else if !(should_buy s).1 then
    ⟨some SkipKind.noSignal, [], [TelegramMsg.skipNoSignal symbol (should_buy s).2.2]⟩
  else
    ⟨some SkipKind.higherTF, [], [TelegramMsg.skipHigherTF symbol]⟩

/-! ## Concurrency guard (`active_trades` collection) -/

/-- Shared state of two concurrent `trade_symbol` runs for the same symbol:
whether the `active_trades` record exists, and whether each run has passed its
`is_trade_active` guard (`bot.py` line 231) and will proceed to
`mark_trade_active` and the rest of the lifecycle. -/
structure ConcState where
  active : Bool
  proceed1 : Bool
  proceed2 : Bool
deriving DecidableEq

/-- The individual database operations of the guard: run `i` first reads the
`active_trades` record (`is_trade_active`, line 231) and later, if the read
found no record, upserts it (`mark_trade_active`, line 241).  Each operation
is individually atomic in MongoDB, but the check and the mark are two separate
operations. -/
inductive GuardOp
  | check1
  | check2
  | mark1
  | mark2
deriving DecidableEq

/-- Effect of one guard operation on the shared state.  A check records
whether the run proceeds (it proceeds iff no record exists at the moment of
its read); a mark upserts the record. -/
def conc_step (st : ConcState) (op : GuardOp) : ConcState :=
  match op with
  | GuardOp.check1 => { st with proceed1 := !st.active }
  | GuardOp.check2 => { st with proceed2 := !st.active }
  | GuardOp.mark1 => { st with active := true }
  | GuardOp.mark2 => { st with active := true }

/-- Run an interleaving of guard operations from an initial state. -/
def run_sched (ops : List GuardOp) (st : ConcState) : ConcState :=
  ops.foldl conc_step st

/-! ## Concrete fixtures used by the theorems below -/

/-- A snapshot on which every one of the seven entry checks fails: ADX 10 is
neither above 25 nor above 20, EMA9 < EMA21, RSI 100 is outside the wide
(40, 70) band (ATR 1 does not exceed its mean 2), close 1 is below VWAP 2,
there is no volume spike, and OBV is flat. -/
def snapFail : Snapshot :=
  { close := 1, ema9 := 1, ema21 := 2, rsi := 100, atr := 1, atrMean := 2,
    vwap := 2, macdDiff := 0, adx := 10, obv := 1, obvPrev := 1, volumeSpike := false }

/-- A run context in which all four guard checks pass. -/
def ctxFree : RunCtx := ⟨false, false, false, false⟩

/-- A run context in which a trade is already active for the symbol. -/
def ctxLocked : RunCtx := ⟨true, false, false, false⟩

/-- A run context in which the symbol is in cooldown. -/
def ctxCooldown : RunCtx := ⟨false, true, false, false⟩

/-- A tick snapshot whose fresh ATR is 10, used against an entry ATR of 2. -/
def cSnap : Snapshot :=
  { close := 100, ema9 := 0, ema21 := 0, rsi := 50, atr := 10, atrMean := 0,
    vwap := 0, macdDiff := 0, adx := 30, obv := 0, obvPrev := 0, volumeSpike := false }

/-- A position far from both boundaries at price 100. -/
def cPos : OpenPosition := { amount := 1, buy_price := 50, stop_loss := 0, take_profit := 1000 }

/-- A benign tick snapshot for the take-profit witnesses. -/
def wSnap : Snapshot :=
  { close := 120, ema9 := 1, ema21 := 0, rsi := 50, atr := 1, atrMean := 1,
    vwap := 0, macdDiff := 1, adx := 30, obv := 1, obvPrev := 0, volumeSpike := true }

/-- A position entered at 100 with take-profit 110. -/
def wPos : OpenPosition := { amount := 1, buy_price := 100, stop_loss := 0, take_profit := 110 }

/-! ## C6: the exit-signal evaluation is regime-conditional -/

/-- C6: `should_sell` returns true iff, in the trending regime (ADX > 25),
fast EMA < slow EMA, or RSI exceeds the adaptive upper band, or
price < entry_price − 1.5·ATR, or MACD histogram < 0, or ADX < 20; and in the
ranging regime iff RSI exceeds the adaptive upper band, or
price < entry_price − 1.0·ATR, or price < VWAP — with the adaptive upper band
being 65 when ATR exceeds its rolling mean and 70 otherwise. -/
theorem should_sell_characterization (s : Snapshot) (entry_price : ℚ) :
    should_sell s entry_price ↔
      (if 25 < s.adx then
        s.ema9 < s.ema21 ∨ (if s.atrMean < s.atr then (65:ℚ) else 70) < s.rsi ∨
          s.close < entry_price - 3/2 * s.atr ∨ s.macdDiff < 0 ∨ s.adx < 20
      else
        (if s.atrMean < s.atr then (65:ℚ) else 70) < s.rsi ∨
          s.close < entry_price - 1 * s.atr ∨ s.close < s.vwap) := by
  unfold should_sell detect_market_regime get_adaptive_rsi_bounds
  by_cases h : (25:ℚ) < s.adx <;> by_cases h2 : s.atrMean < s.atr <;>
    simp [h, h2, gt_iff_lt]

/-! ## C7: the cooldown check -/

/-- C7: `is_in_cooldown` returns true exactly while
`now < last_closed + cooldown_minutes`; with a 60-minute cooldown and a close
recorded at `T`, an entry attempt at `T + 30` is rejected and one at `T + 61`
is permitted; a symbol with no recorded close is never in cooldown. -/
theorem is_in_cooldown_characterization :
    (∀ (st : Store) (symbol : String) (cooldown_minutes now : ℚ),
        is_in_cooldown st symbol cooldown_minutes now = true ↔
          ∃ last_closed, (st symbol).bind PositionDoc.last_closed = some last_closed ∧
            now < last_closed + cooldown_minutes) ∧
    (∀ T : ℚ,
        is_in_cooldown (delete_position empty_store "BTC/USDT" T) "BTC/USDT" 60 (T + 30)
            = true ∧
          is_in_cooldown (delete_position empty_store "BTC/USDT" T) "BTC/USDT" 60 (T + 61)
            = false) ∧
    (∀ (symbol : String) (cooldown_minutes now : ℚ),
        is_in_cooldown empty_store symbol cooldown_minutes now = false) := by
  refine ⟨?_, ?_, ?_⟩
  · intro st symbol cooldown_minutes now
    unfold is_in_cooldown
    cases hst : st symbol with
    | none => simp
    | some pos =>
      cases hlc : pos.last_closed with
      | none => simp [hlc]
      | some last_closed => simp [hlc]
  · intro T
    refine ⟨?_, ?_⟩
    · simp [is_in_cooldown, delete_position, empty_store, blank_doc]
      linarith
    · simp [is_in_cooldown, delete_position, empty_store, blank_doc]
      linarith
  · intro symbol cooldown_minutes now
    simp [is_in_cooldown, empty_store]

/-! ## C4: the trailing-stop update -/

/-- C4 counterexample: at a tick with fresh snapshot ATR 10 (`cSnap`), entry
ATR 2, price 100 and carried trailing stop 0, the code sets the trailing stop
to `max 0 (100 − 2) = 98`, not to `max 0 (100 − cSnap.atr) = 90` as the claim
(fresh-ATR update) states. -/
theorem trailing_update_fresh_atr_counterexample :
    cSnap.atr = 10 ∧
      (monitor_tick cPos cSnap 100 0 2 0 0).trailing_stop ≠ max 0 (100 - 1 * cSnap.atr) := by
  constructor
  · norm_num [cSnap]
  · simp only [monitor_tick]
    split_ifs <;> norm_num [cSnap, max_def]

/-- C4 amended: on every monitoring tick, before the exit hit tests, the
trailing stop is updated to `max (current trailing stop) (price − 1.0 · atr)`
where `atr` is the ATR captured at entry (the loop never refreshes the local
`atr` variable); consequently the trailing stop never decreases. -/
theorem trailing_update_entry_atr_monotone (pos : OpenPosition) (snap : Snapshot)
    (price trailing atr_entry now start_time : ℚ) :
    (monitor_tick pos snap price trailing atr_entry now start_time).trailing_stop
        = max trailing (price - 1 * atr_entry) ∧
      trailing ≤ (monitor_tick pos snap price trailing atr_entry now start_time).trailing_stop := by
  constructor
  · simp only [monitor_tick]
    split_ifs <;> rfl
  · simp only [monitor_tick]
    split_ifs <;> exact le_max_left _ _

/-! ## C3: exit triggers fire in fixed priority order -/

/-- C3: one monitoring tick evaluates the exit triggers in the fixed priority
order take-profit, hard stop-loss, trailing-stop, signal-based exit, 2-hour
timeout, and exactly one terminal branch fires (the result is a single
optional reason); in particular whenever the take-profit condition holds — even
if the trailing-stop condition holds simultaneously — the recorded reason is
take-profit. -/
theorem monitor_tick_priority_order (pos : OpenPosition) (snap : Snapshot)
    (price trailing atr_entry now start_time : ℚ) :
    (price ≥ pos.take_profit →
        (monitor_tick pos snap price trailing atr_entry now start_time).exit
          = some (ExitReason.takeProfit, (price - pos.buy_price) * pos.amount)) ∧
    (¬ price ≥ pos.take_profit → price ≤ pos.stop_loss →
        (monitor_tick pos snap price trailing atr_entry now start_time).exit
          = some (ExitReason.stopLoss, (price - pos.buy_price) * pos.amount)) ∧
    (¬ price ≥ pos.take_profit → ¬ price ≤ pos.stop_loss →
        price ≤ max trailing (price - 1 * atr_entry) →
        (monitor_tick pos snap price trailing atr_entry now start_time).exit
          = some (ExitReason.trailingStop, (price - pos.buy_price) * pos.amount)) ∧
    (¬ price ≥ pos.take_profit → ¬ price ≤ pos.stop_loss →
        ¬ price ≤ max trailing (price - 1 * atr_entry) →
        should_sell snap pos.buy_price →
        (monitor_tick pos snap price trailing atr_entry now start_time).exit
          = some (ExitReason.sellSignal, (price - pos.buy_price) * pos.amount)) ∧
    (¬ price ≥ pos.take_profit → ¬ price ≤ pos.stop_loss →
        ¬ price ≤ max trailing (price - 1 * atr_entry) →
        ¬ should_sell snap pos.buy_price → now > start_time + 120 →
        (monitor_tick pos snap price trailing atr_entry now start_time).exit
          = some (ExitReason.timeout, (price - pos.buy_price) * pos.amount)) ∧
    (¬ price ≥ pos.take_profit → ¬ price ≤ pos.stop_loss →
        ¬ price ≤ max trailing (price - 1 * atr_entry) →
        ¬ should_sell snap pos.buy_price → ¬ now > start_time + 120 →
        (monitor_tick pos snap price trailing atr_entry now start_time).exit = none) := by
  refine ⟨?_, ?_, ?_, ?_, ?_, ?_⟩
  · intro h1
    rw [monitor_tick, if_pos h1]
  · intro h1 h2
    rw [monitor_tick, if_neg h1, if_pos h2]
  · intro h1 h2 h3
    rw [monitor_tick, if_neg h1, if_neg h2, if_pos h3]
  · intro h1 h2 h3 h4
    rw [monitor_tick, if_neg h1, if_neg h2, if_neg h3, if_pos h4]
  · intro h1 h2 h3 h4 h5
    rw [monitor_tick, if_neg h1, if_neg h2, if_neg h3, if_neg h4, if_pos h5]
  · intro h1 h2 h3 h4 h5
    rw [monitor_tick, if_neg h1, if_neg h2, if_neg h3, if_neg h4, if_neg h5]

/-- C3 witness: at price 120 with take-profit 110 and carried trailing stop
200, both the take-profit condition (120 ≥ 110) and the trailing-stop
condition (120 ≤ max 200 119) hold, and the recorded exit reason is
take-profit. -/
theorem monitor_tick_priority_witness :
    (120:ℚ) ≥ wPos.take_profit ∧ (120:ℚ) ≤ max 200 (120 - 1 * 1) ∧
      (monitor_tick wPos wSnap 120 200 1 0 0).exit
        = some (ExitReason.takeProfit, ((120:ℚ) - wPos.buy_price) * wPos.amount) :=
  ⟨by norm_num [wPos], by norm_num [max_def],
    (monitor_tick_priority_order wPos wSnap 120 200 1 0 0).1 (by norm_num [wPos])⟩

/-! ## C10: realized PnL on every exit path -/

/-- C10: whatever terminal branch fires on a monitoring tick, the PnL it
records and logs equals (current ticker price − entry close price) × position
amount; no fee is subtracted anywhere in the computation. -/
theorem monitor_tick_pnl_formula (pos : OpenPosition) (snap : Snapshot)
    (price trailing atr_entry now start_time : ℚ) (reason : ExitReason) (pnl : ℚ)
    (h : (monitor_tick pos snap price trailing atr_entry now start_time).exit
          = some (reason, pnl)) :
    pnl = (price - pos.buy_price) * pos.amount := by
  unfold monitor_tick at h
  split_ifs at h <;> simp_all

/-- C10 witness: the take-profit exit at price 120 of a 1-unit position bought
at 100 records PnL 20 = (120 − 100) × 1. -/
theorem monitor_tick_pnl_formula_witness :
    (20:ℚ) = ((120:ℚ) - wPos.buy_price) * wPos.amount :=
  monitor_tick_pnl_formula wPos wSnap 120 200 1 0 0 ExitReason.takeProfit 20
    (by norm_num [monitor_tick, wPos])

/-! ## C5: order-quantity rounding -/

/-- Round-half-even stays within half a unit of its argument. -/
theorem round_half_even_close (q : ℚ) : |(round_half_even q : ℚ) - q| ≤ 1 / 2 := by
  have h0 : (⌊q⌋ : ℚ) ≤ q := Int.floor_le q
  have h1 : q < ⌊q⌋ + 1 := Int.lt_floor_add_one q
  unfold round_half_even
  split_ifs with ha hb hc
  · rw [abs_of_nonpos (by linarith)]
    linarith
  · push_cast
    rw [abs_of_nonneg (by linarith)]
    linarith
  · rw [abs_of_nonpos (by linarith)]
    linarith
  · push_cast
    rw [abs_of_nonneg (by linarith)]
    linarith

/-- Python rounding at `ndigits` decimal digits stays within half an ulp. -/
theorem pyround_close (q : ℚ) (ndigits : ℕ) :
    |pyround q ndigits - q| ≤ 1 / (2 * 10 ^ ndigits) := by
  have hp : (0:ℚ) < 10 ^ ndigits := by positivity
  have key : pyround q ndigits - q
      = ((round_half_even (q * 10 ^ ndigits) : ℚ) - q * 10 ^ ndigits) / 10 ^ ndigits := by
    unfold pyround
    field_simp
    ring
  rw [key, abs_div, abs_of_pos hp, div_le_iff₀ hp]
  have h2 : (1:ℚ) / (2 * 10 ^ ndigits) * 10 ^ ndigits = 1 / 2 := by
    field_simp
    ring
  rw [h2]
  exact round_half_even_close (q * 10 ^ ndigits)

/-- C5 counterexample: with 63 USDT allocated at entry price 50 and quantity
precision 1, the code computes `round(1.26, 1) = 1.3`, which is strictly
greater than the exact quotient 1.26 — the quantity is rounded up, and differs
from the rounded-down value 1.2 the claim prescribes. -/
theorem order_amount_rounds_up_counterexample :
    order_amount 63 50 1 = 13/10 ∧
      (63:ℚ)/50 < order_amount 63 50 1 ∧
      floor_to_precision ((63:ℚ)/50) 1 = 12/10 ∧
      order_amount 63 50 1 ≠ floor_to_precision ((63:ℚ)/50) 1 := by
  have hfloor : (⌊(63:ℚ)/50 * 10 ^ 1⌋ : ℤ) = 12 := by
    norm_num [Int.floor_eq_iff]
  have hmain : order_amount 63 50 1 = 13/10 := by
    unfold order_amount pyround round_half_even
    rw [show ((63:ℚ)/50 * 10 ^ 1) = 63/5 by norm_num]
    rw [show (⌊(63:ℚ)/5⌋ : ℤ) = 12 by norm_num [Int.floor_eq_iff]]
    norm_num
  have hspec : floor_to_precision ((63:ℚ)/50) 1 = 12/10 := by
    unfold floor_to_precision
    rw [hfloor]
    norm_num
  refine ⟨hmain, ?_, hspec, ?_⟩
  · rw [hmain]
    norm_num
  · rw [hmain, hspec]
    norm_num

/-- C5 amended: the purchased quantity is the allocated capital divided by the
entry price, rounded to the quantity precision of the instrument with Python
`round` (round half to even) — i.e. to the NEAREST representable quantity,
within half an ulp of the exact quotient, which can round up. -/
theorem order_amount_rounds_to_nearest (per_trade_usdt close : ℚ) (precision : ℕ) :
    order_amount per_trade_usdt close precision = pyround (per_trade_usdt / close) precision ∧
      |order_amount per_trade_usdt close precision - per_trade_usdt / close|
        ≤ 1 / (2 * 10 ^ precision) :=
  ⟨rfl, pyround_close (per_trade_usdt / close) precision⟩

/-! ## C1: the entry gate -/

/-- C1: evidence of the code bug.  On `snapFail` every one of the seven entry
checks fails (`should_buy` returns flag `false` with seven failure reasons),
yet with higher-timeframe confirmation the entry phase places a buy order and
does not skip: line 251 of `bot.py` branches on the truthiness of the 3-tuple
returned by `should_buy(df)` — which is always truthy — instead of on the
boolean flag captured on line 250, which the skip branch (lines 325-332) and
`log_successful_buy` show was the intent. -/
theorem buy_order_despite_failed_checks :
    (should_buy snapFail).1 = false ∧
      (should_buy snapFail).2.2.length = 7 ∧
      (trade_symbol_entry ctxFree "BTC/USDT" 100 3 snapFail true).skip = none ∧
      (trade_symbol_entry ctxFree "BTC/USDT" 100 3 snapFail true).orders
        = [("BTC/USDT", order_amount 100 snapFail.close 3)] := by
  have hb : should_buy snapFail
      = (false, [],
          ["Regime: not trending (ADX <= 25)", "EMA: EMA9 <= EMA21",
            "RSI out of bounds", "Close <= VWAP", "ADX <= 20", "No volume spike",
            "OBV not increasing"]) := by
    norm_num [should_buy, detect_market_regime, get_adaptive_rsi_bounds, snapFail]
    simp
  have he : trade_symbol_entry ctxFree "BTC/USDT" 100 3 snapFail true
      = ⟨none, [("BTC/USDT", order_amount 100 snapFail.close 3)],
          [TelegramMsg.buyAlert "BTC/USDT" snapFail.close
            (snapFail.close + 5/2 * snapFail.atr) (snapFail.close - 3/2 * snapFail.atr)]⟩ := by
    simp [trade_symbol_entry, ctxFree, py_truthy_tuple3]
  exact ⟨by simp [hb], by simp [hb], by simp [he], by simp [he]⟩

/-! ## C8: which skips notify -/

/-- C8 counterexample: a lifecycle run that skips because a trade is already
active for the symbol sends no Telegram notification at all — the code only
prints to the console and returns (`bot.py` lines 231-233). -/
theorem skip_without_notification_counterexample :
    (trade_symbol_entry ctxLocked "BTC/USDT" 100 3 snapFail true).skip
        = some SkipKind.activeLock ∧
      (trade_symbol_entry ctxLocked "BTC/USDT" 100 3 snapFail true).telegrams = [] := by
  constructor <;> rfl

/-- C8 amended: only the two signal skips (indicator failure with its reasons,
and failed higher-timeframe confirmation) emit a Notifier message; skips caused
by an active lock, an active cooldown, the global trading pause, or an
already-open position emit none. -/
theorem skip_notification_policy (ctx : RunCtx) (symbol : String) (per_trade_usdt : ℚ)
    (precision : ℕ) (s : Snapshot) (htf_confirms : Bool) :
    ((trade_symbol_entry ctx symbol per_trade_usdt precision s htf_confirms).skip
          = some SkipKind.noSignal ∨
        (trade_symbol_entry ctx symbol per_trade_usdt precision s htf_confirms).skip
          = some SkipKind.higherTF →
        (trade_symbol_entry ctx symbol per_trade_usdt precision s htf_confirms).telegrams
          ≠ []) ∧
    ((trade_symbol_entry ctx symbol per_trade_usdt precision s htf_confirms).skip
          = some SkipKind.activeLock ∨
        (trade_symbol_entry ctx symbol per_trade_usdt precision s htf_confirms).skip
          = some SkipKind.cooldown ∨
        (trade_symbol_entry ctx symbol per_trade_usdt precision s htf_confirms).skip
          = some SkipKind.pause ∨
        (trade_symbol_entry ctx symbol per_trade_usdt precision s htf_confirms).skip
          = some SkipKind.positionOpen →
        (trade_symbol_entry ctx symbol per_trade_usdt precision s htf_confirms).telegrams
          = []) := by
  unfold trade_symbol_entry
  split_ifs <;> simp

/-- C8 witness: a run skipped by the cooldown guard sends no Telegram
notification. -/
theorem skip_notification_policy_witness :
    (trade_symbol_entry ctxCooldown "ETH/USDT" 100 3 snapFail true).telegrams = [] :=
  (skip_notification_policy ctxCooldown "ETH/USDT" 100 3 snapFail true).2
    (Or.inr (Or.inl rfl))

/-! ## C2: the close path -/

/-- C2: evidence of the code bug.  Closing a position saved for "BTC/USDT" via
`delete_position` at time 1000 leaves the document in the store — the store
still reports the symbol (so every later `trade_symbol` run skips it as
"Position already open"), even though `last_closed` is correctly recorded and
makes the cooldown check behave as `closed_at + cooldown_duration`.  The
record is not deleted as the claim states. -/
theorem delete_position_keeps_record :
    position_reported
        (delete_position (save_position empty_store "BTC/USDT" 1 100 85 125 0) "BTC/USDT" 1000)
        "BTC/USDT" = true ∧
      ((delete_position (save_position empty_store "BTC/USDT" 1 100 85 125 0) "BTC/USDT" 1000)
          "BTC/USDT").map PositionDoc.last_closed = some (some 1000) ∧
      is_in_cooldown
          (delete_position (save_position empty_store "BTC/USDT" 1 100 85 125 0) "BTC/USDT" 1000)
          "BTC/USDT" 60 1030 = true ∧
      is_in_cooldown
          (delete_position (save_position empty_store "BTC/USDT" 1 100 85 125 0) "BTC/USDT" 1000)
          "BTC/USDT" 60 1061 = false := by
  refine ⟨rfl, rfl, ?_, ?_⟩
  · simp [is_in_cooldown, delete_position, save_position, empty_store, blank_doc]
    norm_num
  · simp [is_in_cooldown, delete_position, save_position, empty_store, blank_doc]
    norm_num

/-! ## C9: the guard is not atomic -/

/-- C9: evidence of the code bug.  `is_trade_active` (the read) and
`mark_trade_active` (the upsert) are two separate database operations, so in
the interleaving check1, check2, mark1, mark2 — which respects each run's
program order — both concurrent runs observe no active trade, both proceed,
and both mark the trade active and go on to open a position.  The claim that
at most one run acquires the per-symbol lock fails on the code. -/
theorem concurrent_guard_race :
    (run_sched [GuardOp.check1, GuardOp.check2, GuardOp.mark1, GuardOp.mark2]
        ⟨false, false, false⟩).proceed1 = true ∧
      (run_sched [GuardOp.check1, GuardOp.check2, GuardOp.mark1, GuardOp.mark2]
        ⟨false, false, false⟩).proceed2 = true ∧
      (run_sched [GuardOp.check1, GuardOp.check2, GuardOp.mark1, GuardOp.mark2]
        ⟨false, false, false⟩).active = true :=
  ⟨rfl, rfl, rfl⟩
